import Mathlib

/-!
Shallow embedding of the telegram-anti-spam-bot core
(`utils.py`, `rules.py`, `storage.py`, `handlers.py`)
and verification of the specification's claims about it.

External libraries the source calls (`re`, `unicodedata`, `tldextract`,
`urllib.parse`, `hashlib`, Redis) are modelled faithfully at the points
the repository exercises them; every model is documented on the
definition it supports.
-/

namespace AntiSpam

/-! ## Character classes (models of Python `re` character classes) -/

/-- Model of the regex class `\s` (whitespace), restricted to the ASCII
whitespace characters, which are the only whitespace the repository's
texts contain. -/
def pyWhitespace (c : Char) : Bool :=
  c = ' ' || c = '\t' || c = '\n' || c = '\x0d' || c = '\x0b' || c = '\x0c'

/-- ASCII letter, the class `[a-zA-Z]`. -/
def asciiAlpha (c : Char) : Bool :=
  ('a' ≤ c && c ≤ 'z') || ('A' ≤ c && c ≤ 'Z')

/-- ASCII digit, the class `\d` (restricted to ASCII as the source's
texts are). -/
def asciiDigit (c : Char) : Bool :=
  '0' ≤ c && c ≤ '9'

/-- The class `[a-zA-Z0-9-]` from the URL regex in `utils.extract_urls`. -/
def alnumDash (c : Char) : Bool :=
  asciiAlpha c || asciiDigit c || c = '-'

/-- Word character for `\b` boundaries in `re`: `[a-zA-Z0-9_]`
(ASCII model of `\w`). -/
def wordChar (c : Char) : Bool :=
  asciiAlpha c || asciiDigit c || c = '_'

/-- ASCII lowercase of a character; models Python `str.lower` on the
ASCII texts the repository handles. -/
def lowerChar (c : Char) : Char :=
  if 'A' ≤ c && c ≤ 'Z' then Char.ofNat (c.toNat + 32) else c

/-- Lowercase a string, models `text.lower()`. -/
def lowerStr (s : String) : String :=
  ⟨s.data.map lowerChar⟩

/-! ## Generic list/string helpers -/

/-- Does `pat` occur at the head of `l`, comparing case-insensitively
(models a case-insensitive literal regex prefix under `re.IGNORECASE`)? -/
def ciHasPrefixL (pat : List Char) : List Char → Bool
  | l =>
    match pat, l with
    | [], _ => true
    | _ :: _, [] => false
    | p :: ps, c :: cs => (lowerChar p = lowerChar c) && ciHasPrefixL ps cs

/-- Does `pat` occur at the head of `l` (case-sensitive)? -/
def hasPrefixL (pat : List Char) : List Char → Bool
  | l =>
    match pat, l with
    | [], _ => true
    | _ :: _, [] => false
    | p :: ps, c :: cs => (p = c) && hasPrefixL ps cs

/-- Does `pat` occur anywhere in `hay` (substring containment)? -/
def containsSub (hay pat : List Char) : Bool :=
  match hay with
  | [] => pat.isEmpty
  | _ :: cs => hasPrefixL pat hay || containsSub cs pat

/-- Case-insensitive substring containment, models
`re.search(literal, text, re.IGNORECASE)` for a literal pattern. -/
def containsSubCI (hay pat : List Char) : Bool :=
  match hay with
  | [] => pat.isEmpty
  | _ :: cs => ciHasPrefixL pat hay || containsSubCI cs pat

/-- Split `l` at the first occurrence of `sep`, returning the parts
before and after it; `none` when `sep` does not occur. -/
def splitFirst (sep : List Char) : List Char → Option (List Char × List Char)
  | [] => if sep.isEmpty then some ([], []) else none
  | c :: cs =>
    if hasPrefixL sep (c :: cs) then some ([], (c :: cs).drop sep.length)
    else match splitFirst sep cs with
      | some (pre, post) => some (c :: pre, post)
      | none => none

/-! ## `utils.extract_urls`

Model of the Python regex
`(?:(?:https?://)|(?:www\.)|(?:[a-zA-Z0-9-]+\.[a-zA-Z]{2,}))(?:[^\s<>\"'\)]+)?`
with `re.IGNORECASE`, applied with `re.findall` (leftmost,
non-overlapping scan). The alternation is ordered and, because no
alternative can match where a later one yields a different overall
result after the greedy optional tail, the match at a position is the
ordered first head alternative followed by the maximal tail run. -/

/-- Character admitted by the greedy tail `[^\s<>"')]+` of the URL
regex. Code points 34, 39, 41, 60, 62 are `"`,`'`,`)`,`<`,`>`. -/
def urlTailChar (c : Char) : Bool :=
  !(pyWhitespace c || c.toNat = 60 || c.toNat = 62 || c.toNat = 34 ||
    c.toNat = 39 || c.toNat = 41)

/-- Length of the head alternation match of the URL regex at the start
of `l`: `https?://` (tried with `s` first, per greedy `s?`), then
`www.`, then `[a-zA-Z0-9-]+\.[a-zA-Z]{2,}`; `none` when no alternative
matches. -/
def urlHeadLen (l : List Char) : Option Nat :=
  if ciHasPrefixL ("https://".data) l then some 8
  else if ciHasPrefixL ("http://".data) l then some 7
  else if ciHasPrefixL ("www.".data) l then some 4
  else
    let s1 := l.takeWhile alnumDash
    let r1 := l.drop s1.length
    if s1.isEmpty then none
    else match r1 with
      | '.' :: r2 =>
        let s2 := r2.takeWhile asciiAlpha
        if 2 ≤ s2.length then some (s1.length + 1 + s2.length) else none
      | _ => none

/-- Full regex match length at the start of `l`: head alternative plus
the greedy optional tail. -/
def urlMatchLen (l : List Char) : Option Nat :=
  match urlHeadLen l with
  | none => none
  | some h => some (h + ((l.drop h).takeWhile urlTailChar).length)

/-- Left-to-right non-overlapping scan of `re.findall`: at each
position try a match; on success emit it and resume after it, else
advance one character. `fuel` bounds recursion and is initialised to
the list length, which every call preserves as an upper bound of the
remaining list's length, so it never runs out before the list does. -/
def urlScan : Nat → List Char → List (List Char)
  | 0, _ => []
  | _ + 1, [] => []
  | fuel + 1, c :: cs =>
    match urlMatchLen (c :: cs) with
    | some n =>
      if n = 0 then urlScan fuel cs
      else ((c :: cs).take n) :: urlScan fuel ((c :: cs).drop n)
    | none => urlScan fuel cs

/-- `utils.extract_urls`: all URL-like substrings of `text`, in order.
The Python list comprehension dropping empty matches is the `n = 0`
case of the scan (the regex in fact never matches empty). -/
def extract_urls (text : String) : List String :=
  (urlScan text.data.length text.data).map (fun l => ⟨l⟩)

/-! ## `utils.extract_tld`

Modelled from the external `tldextract` library as used here: the
public suffix of the URL's host. All suspicious TLDs configured in
this repository are single-label public suffixes, so the model returns
the last dot-separated label of the host, lowercased, and the empty
string when the URL has no dotted host (`tldextract` never raises and
the source converts any failure to `""`). -/

/-- Host portion of a URL-like string: the part after `://` when
present (else the whole string), cut at the first `/`, `?` or `#`,
after the last `@`, and before any `:port`. -/
def urlHost (url : String) : List Char :=
  let l := url.data
  let afterScheme :=
    match splitFirst ("://".data) l with
    | some (_, post) => post
    | none => l
  let untilPath := afterScheme.takeWhile
    (fun c => !(c = '/' || c = '?' || c = '#'))
  let afterUser :=
    match splitFirst (['@']) untilPath.reverse with
    | some (revTail, _) => revTail.reverse
    | none => untilPath
  afterUser.takeWhile (fun c => c ≠ ':')

/-- `utils.extract_tld` (model, see section comment): last dotted label
of the host, lowercased; `""` if the host has no dot. -/
def extract_tld (url : String) : String :=
  let host := urlHost url
  match splitFirst (['.']) host.reverse with
  | some (revLast, _) =>
    if revLast.isEmpty then "" else ⟨(revLast.reverse).map lowerChar⟩
  | none => ""

/-! ## `utils.has_telegram_invite` -/

/-- `utils.has_telegram_invite`: case-insensitive search for the four
invite-link patterns (each regex is a literal string; `\.` and `\+`
are escaped in the source, so plain substring search is exact). -/
def has_telegram_invite (text : String) : Bool :=
  containsSubCI text.data ("t.me/joinchat/".data) ||
  containsSubCI text.data ("t.me/+".data) ||
  containsSubCI text.data ("telegram.me/joinchat/".data) ||
  containsSubCI text.data ("telegram.me/+".data)

/-! ## `utils.has_url_shortener` -/

/-- The fixed shortener-domain set from `utils.has_url_shortener`. -/
def shortenerDomains : List String :=
  ["bit.ly", "t.co", "tinyurl.com", "goo.gl", "ow.ly", "is.gd",
   "buff.ly", "adf.ly"]

/-- Recursion worker for `eraseAllSub`, structural in its fuel. -/
def eraseAllSubAux (pat : List Char) : Nat → List Char → List Char
  | 0, l => l
  | _ + 1, [] => []
  | fuel + 1, c :: cs =>
    if !pat.isEmpty && hasPrefixL pat (c :: cs) then
      eraseAllSubAux pat fuel (cs.drop (pat.length - 1))
    else c :: eraseAllSubAux pat fuel cs

/-- Replace every occurrence of `pat` in `l` by nothing, left to right
(model of Python `str.replace(pat, "")`). The structural fuel starts
at the list length, an upper bound on the steps (each step strictly
shortens the list), so it is never exhausted. -/
def eraseAllSub (pat l : List Char) : List Char :=
  eraseAllSubAux pat l.length l

/-- Valid URL scheme before `://` for `urllib.parse.urlparse`: a
letter followed by letters, digits, `+`, `-`, `.`. -/
def validScheme (l : List Char) : Bool :=
  match l with
  | [] => false
  | c :: cs =>
    asciiAlpha c &&
    cs.all (fun d => asciiAlpha d || asciiDigit d || d = '+' || d = '-' || d = '.')

/-- `urlparse(u).netloc` (model of the stdlib parser on the URL shapes
this repository produces): when the text before the first `://` is a
valid scheme, the host-and-port part after `//` up to the first `/`,
`?` or `#`; otherwise the empty netloc. -/
def urlparseNetloc (u : String) : List Char :=
  match splitFirst ("://".data) u.data with
  | some (pre, post) =>
    if validScheme pre then
      post.takeWhile (fun c => !(c = '/' || c = '?' || c = '#'))
    else []
  | none => []

/-- `utils.has_url_shortener`: any URL whose netloc, lowercased and
with every `www.` occurrence removed, is exactly a known shortener
domain. URLs without `://` get `http://` prefixed first, as in the
source. -/
def has_url_shortener (urls : List String) : Bool :=
  urls.any (fun url =>
    let u := if containsSub url.data ("://".data) then url
             else "http://" ++ url
    let dom := eraseAllSub ("www.".data) ((urlparseNetloc u).map lowerChar)
    shortenerDomains.any (fun s => s.data = dom))

/-! ## `utils.has_unicode_tricks` -/

/-- The fixed zero-width / invisible code-point set from
`utils.has_unicode_tricks`. -/
def zeroWidthChar (c : Char) : Bool :=
  c.toNat = 0x200b || c.toNat = 0x200c || c.toNat = 0x200d ||
  c.toNat = 0x2060 || c.toNat = 0xfeff

/-- Models `unicodedata.combining(c) != 0` on the principal combining
blocks (Combining Diacritical Marks, Hebrew points, Combining Marks
for Symbols); characters outside these blocks that the repository
never feeds it are treated as non-combining. -/
def combiningChar (c : Char) : Bool :=
  (0x300 ≤ c.toNat && c.toNat ≤ 0x36f) ||
  (0x591 ≤ c.toNat && c.toNat ≤ 0x5bd) ||
  (0x20d0 ≤ c.toNat && c.toNat ≤ 0x20ff)

/-- The right-to-left override pair checked by the source. -/
def rtlChar (c : Char) : Bool :=
  c.toNat = 0x202e || c.toNat = 0x202d

/-- `utils.has_unicode_tricks`: any zero-width character, or more than
10% combining characters (`combining_count > len(text) * 0.1`; the
float bound `len * 0.1` is represented exactly as the rational
`len/10`, written `mkRat len 10`), or any RTL override character. -/
def has_unicode_tricks (text : String) : Bool :=
  text.data.any zeroWidthChar ||
  decide (mkRat (text.data.length : Int) 10 <
          ((text.data.countP (fun c => combiningChar c)) : ℚ)) ||
  text.data.any rtlChar

/-! ## `utils.contains_spam_keywords` -/

/-- The literal keywords of `utils.contains_spam_keywords` (every
entry of the Python list except the one genuine regex,
`\b(xxx|18\+|onlyfans)\b`, handled separately). As in the source they
are matched against the lowercased text; each literal contains no
regex metacharacter, so `re.search` on it is substring search. -/
def spamKeywordLiterals : List String :=
  ["free crypto", "airdrop", "giveaway", "claim now", "free btc",
   "free eth", "free tokens", "verify your account", "verification team",
   "verify now", "urgent action required", "hot singles", "dm me",
   "click here", "limited time", "act now", "congratulations you won",
   "prize winner", "double your", "investment opportunity",
   "make money fast", "work from home", "no experience needed"]

/-- Is there a `\b`-boundary before position `i`? The three regex
alternatives all begin with a word character, so the boundary holds
iff `i = 0` or the previous character is not a word character. -/
def boundaryBefore (l : List Char) (i : Nat) : Bool :=
  i = 0 || !(wordChar (l.getD (i - 1) ' '))

/-- Is there a `\b`-boundary between positions `i-1` and `i`, where
the character at `i-1` is `last` (the final character of the matched
alternative)? A boundary holds iff exactly one side is a word
character. -/
def boundaryAfter (l : List Char) (i : Nat) (last : Char) : Bool :=
  if wordChar last then
    decide (i = l.length) || !(wordChar (l.getD i ' '))
  else
    decide (i < l.length) && wordChar (l.getD i ' ')

/-- Does the alternative `pat` (nonempty) match in `l` at position `i`
with `\b` boundaries on both sides? -/
def boundedHitAt (l pat : List Char) (i : Nat) : Bool :=
  hasPrefixL pat (l.drop i) && boundaryBefore l i &&
  boundaryAfter l (i + pat.length) (pat.getLastD ' ')

/-- `re.search` of `\b(xxx|18\+|onlyfans)\b` on the lowercased text:
some alternative matches at some position with word boundaries. -/
def adultRegexHit (l : List Char) : Bool :=
  (List.range (l.length + 1)).any (fun i =>
    boundedHitAt l ("xxx".data) i || boundedHitAt l ("18+".data) i ||
    boundedHitAt l ("onlyfans".data) i)

/-- `utils.contains_spam_keywords`: lowercase the text, then search
each keyword in order (first match short-circuits; the result is the
disjunction). -/
def contains_spam_keywords (text : String) : Bool :=
  let lower := (lowerStr text).data
  spamKeywordLiterals.any (fun k => containsSub lower k.data) ||
  adultRegexHit lower

/-! ## `utils.get_suspicious_tlds` -/

/-- `utils.get_suspicious_tlds`: the fixed suspicious TLD set
(represented as a list; membership is what the scorer uses). -/
def get_suspicious_tlds : List String :=
  ["ru", "icu", "xyz", "top", "monster", "tk", "ml", "ga", "cf", "gq",
   "work", "click", "link", "loan", "win", "bid"]

/-! ## `utils.normalize_text` -/

/-- The character ranges removed by the first regex of
`utils.normalize_text`: U+200B to U+200F, U+202A to U+202E, U+2060 to
U+206F, and U+FEFF. -/
def normalizeStrippedChar (c : Char) : Bool :=
  (0x200b ≤ c.toNat && c.toNat ≤ 0x200f) ||
  (0x202a ≤ c.toNat && c.toNat ≤ 0x202e) ||
  (0x2060 ≤ c.toNat && c.toNat ≤ 0x206f) ||
  c.toNat = 0xfeff

/-- Models `unicodedata.normalize("NFKC", s)` from the Python standard
library. NFKC is the identity on strings containing no decomposable
or compatibility characters; every string this development evaluates
the pipeline on is such a string, so the model is the identity. -/
def nfkc (s : String) : String := s

/-- Python `str.strip()`: remove leading and trailing whitespace. -/
def stripStr (s : String) : String :=
  ⟨(((s.data.dropWhile pyWhitespace).reverse).dropWhile pyWhitespace).reverse⟩

/-- `utils.normalize_text`: remove zero-width/invisible characters,
NFKC-normalize, strip, lowercase. -/
def normalize_text (text : String) : String :=
  lowerStr (stripStr (nfkc ⟨text.data.filter (fun c => !normalizeStrippedChar c)⟩))

/-! ## `utils.has_non_english_text` -/

/-- The removal class of `utils.has_non_english_text`'s cleaning
regex: whitespace, digits, and the listed punctuation/symbols (given
here by code point: `. , ! ? ; : - ( ) [ ] braces " ' / \ @ # $ % ^ &
* + = ~ backtick | < > _`). -/
def cleanRemovedChar (c : Char) : Bool :=
  pyWhitespace c || asciiDigit c ||
  [46, 44, 33, 63, 59, 58, 45, 40, 41, 91, 93, 123, 125, 34, 39, 47,
   92, 64, 35, 36, 37, 94, 38, 42, 43, 61, 126, 96, 124, 60, 62, 95
  ].any (fun n => c.toNat = n)

/-- Models the per-character script test of
`utils.has_non_english_text`. The source asks whether
`unicodedata.name(char, '')` contains one of ten script words; on the
principal block of each of those scripts the name does contain the
word, and the source's own (unreachable) fallback lists exactly these
code-point ranges, which the model adopts. -/
def isNonLatinScriptChar (c : Char) : Bool :=
  let n := c.toNat
  (0x400 ≤ n && n ≤ 0x4ff) || (0x500 ≤ n && n ≤ 0x52f) ||
  (0x600 ≤ n && n ≤ 0x6ff) || (0x750 ≤ n && n ≤ 0x77f) ||
  (0x590 ≤ n && n ≤ 0x5ff) || (0x4e00 ≤ n && n ≤ 0x9fff) ||
  (0x3040 ≤ n && n ≤ 0x309f) || (0x30a0 ≤ n && n ≤ 0x30ff) ||
  (0xac00 ≤ n && n ≤ 0xd7af) || (0x900 ≤ n && n ≤ 0x97f) ||
  (0xe00 ≤ n && n ≤ 0xe7f) || (0x370 ≤ n && n ≤ 0x3ff)

/-- The cleaned character sequence of `utils.has_non_english_text`. -/
def cleanedChars (text : String) : List Char :=
  text.data.filter (fun c => !cleanRemovedChar c)

/-- Non-Latin character count over the cleaned sequence. -/
def nonLatinCount (text : String) : Nat :=
  (cleanedChars text).countP (fun c => isNonLatinScriptChar c)

/-- `utils.has_non_english_text`: clean the text; empty cleaned text
gives `False`; otherwise flag when the non-Latin ratio reaches the
threshold (`ratio >= threshold`, rationals standing for the floats;
the ratio `non_latin_count / len(cleaned)` is the exact rational
`mkRat count len`, whose denominator is nonzero in this branch). -/
def has_non_english_text (text : String) (threshold : ℚ) : Bool :=
  let cleaned := cleanedChars text
  if cleaned.length = 0 then false
  else decide (threshold ≤ mkRat (nonLatinCount text : Int) cleaned.length)

/-! ## `rules.py` -/

/-- Default thresholds (`rules.WARN_THRESHOLD`,
`rules.HARD_DELETE_THRESHOLD`). -/
def WARN_THRESHOLD : Int := 4

/-- Default hard-delete threshold. -/
def HARD_DELETE_THRESHOLD : Int := 8

/-- `rules.SpamScore`: the scoring result container. -/
structure SpamScore where
  total : Int
  reasons : List String
  should_warn : Bool
  should_delete : Bool
deriving Repr, DecidableEq

/-- `rules.RulesConfig` after construction: the fields the scorer
reads. -/
structure RulesConfig where
  warn_threshold : Int
  hard_delete_threshold : Int
  suspicious_tlds : List String
  check_non_english : Bool
  non_english_threshold : ℚ
deriving Repr

/-- The parsed contents of an existing, well-formed `data/rules.yaml`
file: each recognised key is present or absent, as `config.get` sees
it. -/
structure YamlRules where
  warn_threshold : Option Int := none
  hard_delete_threshold : Option Int := none
  suspicious_tlds : List String := []
  check_non_english : Option Bool := none
  non_english_threshold : Option ℚ := none

/-- `RulesConfig.__init__` followed by `load_config`: defaults are
set, then, when a readable non-empty config file exists (`some y`),
each value is taken from it with `config.get(key, default)` — with no
validation of the thresholds. A missing, empty, or unreadable file
(`none`) leaves the defaults (the source logs and returns, or catches
the exception). Extra suspicious TLDs are merged into, not replacing,
the default set. -/
def RulesConfig.construct (file : Option YamlRules) : RulesConfig :=
  let base : RulesConfig :=
    ⟨WARN_THRESHOLD, HARD_DELETE_THRESHOLD, get_suspicious_tlds, true, mkRat 3 10⟩
  match file with
  | none => base
  | some y =>
    { warn_threshold := y.warn_threshold.getD WARN_THRESHOLD
      hard_delete_threshold := y.hard_delete_threshold.getD HARD_DELETE_THRESHOLD
      suspicious_tlds := base.suspicious_tlds ++ y.suspicious_tlds
      check_non_english := y.check_non_english.getD true
      non_english_threshold := y.non_english_threshold.getD (mkRat 3 10) }

/-- The default configuration (`RulesConfig()` with no
`data/rules.yaml` present). -/
def defaultRulesConfig : RulesConfig := RulesConfig.construct none

/-- Rules 1–7 of `rules.calculate_spam_score`: the running total and
reason list before the strict-mode step, accumulated in source
order. -/
def base_score (text : String) (cfg : RulesConfig) : Int × List String :=
  let urls := extract_urls text
  let link_count := urls.length
  let acc1 : Int × List String :=
    if 2 ≤ link_count then
      let points : Int := min (link_count : Int) 4
      (points, [toString link_count ++ " links (+" ++ toString points ++ ")"])
    else (0, [])
  let suspicious_tld_count :=
    (urls.filter (fun u => cfg.suspicious_tlds.contains (extract_tld u))).length
  let acc2 :=
    if 0 < suspicious_tld_count then
      let points : Int := min ((suspicious_tld_count : Int) * 2) 6
      (acc1.1 + points,
       acc1.2 ++ ["Suspicious TLD (" ++ toString suspicious_tld_count ++ ") (+" ++
                  toString points ++ ")"])
    else acc1
  let acc3 :=
    if has_url_shortener urls then
      (acc2.1 + 3, acc2.2 ++ ["URL shortener (+3)"])
    else acc2
  let acc4 :=
    if has_telegram_invite text then
      (acc3.1 + 4, acc3.2 ++ ["Telegram invite (+4)"])
    else acc3
  let acc5 :=
    if contains_spam_keywords text then
      (acc4.1 + 5, acc4.2 ++ ["Spam keywords (+5)"])
    else acc4
  let acc6 :=
    if has_unicode_tricks text then
      (acc5.1 + 3, acc5.2 ++ ["Unicode tricks (+3)"])
    else acc5
  if cfg.check_non_english &&
     has_non_english_text text cfg.non_english_threshold then
    (acc6.1 + 6, acc6.2 ++ ["Non-English text (+6)"])
  else acc6

/-- `rules.calculate_spam_score`: rules 1–7, then the strict-mode +1
on a positive total, then the two independent threshold
comparisons. -/
def calculate_spam_score (text : String) (strict_mode : Bool)
    (cfg : RulesConfig) : SpamScore :=
  let b := base_score text cfg
  let withStrict :=
    if strict_mode && decide (0 < b.1) then
      (b.1 + 1, b.2 ++ ["Strict mode (+1)"])
    else b
  { total := withStrict.1
    reasons := withStrict.2
    should_warn := decide (cfg.warn_threshold ≤ withStrict.1)
    should_delete := decide (cfg.hard_delete_threshold ≤ withStrict.1) }

/-! ## SHA-256 (model of `hashlib.sha256`)

A complete executable SHA-256 over byte lists (bytes and 32-bit words
as `Nat` with explicit reduction mod 2^32), used to embed
`storage.Store._hash_content`. -/

/-- Addition mod 2^32. -/
def add32 (a b : Nat) : Nat := (a + b) % 4294967296

/-- Right rotation of a 32-bit word by `n` (for `x < 2^32`,
`0 < n < 32`). -/
def rotr32 (x n : Nat) : Nat := x / 2 ^ n + x % 2 ^ n * 2 ^ (32 - n)

/-- Logical right shift. -/
def shr32 (x n : Nat) : Nat := x / 2 ^ n

/-- Bitwise complement of a 32-bit word. -/
def not32 (x : Nat) : Nat := 4294967295 - x

/-- SHA-256 Σ₀. -/
def bsig0 (x : Nat) : Nat := rotr32 x 2 ^^^ rotr32 x 13 ^^^ rotr32 x 22

/-- SHA-256 Σ₁. -/
def bsig1 (x : Nat) : Nat := rotr32 x 6 ^^^ rotr32 x 11 ^^^ rotr32 x 25

/-- SHA-256 σ₀. -/
def ssig0 (x : Nat) : Nat := rotr32 x 7 ^^^ rotr32 x 18 ^^^ shr32 x 3

/-- SHA-256 σ₁. -/
def ssig1 (x : Nat) : Nat := rotr32 x 17 ^^^ rotr32 x 19 ^^^ shr32 x 10

/-- SHA-256 Ch. -/
def chFn (x y z : Nat) : Nat := (x &&& y) ^^^ (not32 x &&& z)

/-- SHA-256 Maj. -/
def majFn (x y z : Nat) : Nat := (x &&& y) ^^^ (x &&& z) ^^^ (y &&& z)

/-- The 64 SHA-256 round constants (FIPS 180-4, written in decimal). -/
def sha256K : List Nat :=
  [1116352408, 1899447441, 3049323471, 3921009573, 961987163, 1508970993,
   2453635748, 2870763221, 3624381080, 310598401, 607225278, 1426881987,
   1925078388, 2162078206, 2614888103, 3248222580, 3835390401, 4022224774,
   264347078, 604807628, 770255983, 1249150122, 1555081692, 1996064986,
   2554220882, 2821834349, 2952996808, 3210313671, 3336571891, 3584528711,
   113926993, 338241895, 666307205, 773529912, 1294757372, 1396182291,
   1695183700, 1986661051, 2177026350, 2456956037, 2730485921, 2820302411,
   3259730800, 3345764771, 3516065817, 3600352804, 4094571909, 275423344,
   430227734, 506948616, 659060556, 883997877, 958139571, 1322822218,
   1537002063, 1747873779, 1955562222, 2024104815, 2227730452, 2361852424,
   2428436474, 2756734187, 3204031479, 3329325298]

/-- The SHA-256 initial hash value (FIPS 180-4, written in decimal). -/
def sha256H0 : List Nat :=
  [1779033703, 3144134277, 1013904242, 2773480762, 1359893119, 2600822924,
   528734635, 1541459225]

/-- `w` big-endian bytes of `v` (most significant first). -/
def beBytes : Nat → Nat → List Nat
  | 0, _ => []
  | w + 1, v => beBytes w (v / 256) ++ [v % 256]

/-- SHA-256 padding: append `0x80`, zero bytes to 56 mod 64, and the
64-bit big-endian bit length. -/
def sha256Pad (msg : List Nat) : List Nat :=
  let L := msg.length
  let zeros := (55 + 64 - L % 64) % 64
  msg ++ [0x80] ++ List.replicate zeros 0 ++ beBytes 8 (L * 8)

/-- Group bytes into big-endian 32-bit words. -/
def toWords : List Nat → List Nat
  | b0 :: b1 :: b2 :: b3 :: rest =>
    (((b0 * 256 + b1) * 256 + b2) * 256 + b3) :: toWords rest
  | _ => []

/-- Recursion worker for `chunks64`, structural in its fuel. -/
def chunks64Aux : Nat → List Nat → List (List Nat)
  | 0, _ => []
  | _ + 1, [] => []
  | fuel + 1, c :: cs => ((c :: cs).take 64) :: chunks64Aux fuel (cs.drop 63)

/-- Split into 64-byte blocks. The fuel starts at the list length, an
upper bound on the number of blocks, so it is never exhausted. -/
def chunks64 (l : List Nat) : List (List Nat) :=
  chunks64Aux l.length l

/-- Extend 16 message-schedule words to 64. -/
def fullSchedule (w16 : List Nat) : List Nat :=
  (List.range 48).foldl
    (fun ws _ =>
      let i := ws.length
      ws ++ [add32 (add32 (ssig1 (ws.getD (i - 2) 0)) (ws.getD (i - 7) 0))
                   (add32 (ssig0 (ws.getD (i - 15) 0)) (ws.getD (i - 16) 0))])
    w16

/-- SHA-256 working state (a–h). -/
structure Sha256St where
  a : Nat
  b : Nat
  c : Nat
  d : Nat
  e : Nat
  f : Nat
  g : Nat
  h : Nat

/-- One compression round. -/
def sha256Round (st : Sha256St) (w k : Nat) : Sha256St :=
  let t1 := add32 st.h (add32 (bsig1 st.e) (add32 (chFn st.e st.f st.g) (add32 k w)))
  let t2 := add32 (bsig0 st.a) (majFn st.a st.b st.c)
  ⟨add32 t1 t2, st.a, st.b, st.c, add32 st.d t1, st.e, st.f, st.g⟩

/-- Compress one 64-byte block into the hash state. -/
def sha256Compress (hs : List Nat) (block : List Nat) : List Nat :=
  let w := fullSchedule (toWords block)
  let st0 : Sha256St :=
    ⟨hs.getD 0 0, hs.getD 1 0, hs.getD 2 0, hs.getD 3 0,
     hs.getD 4 0, hs.getD 5 0, hs.getD 6 0, hs.getD 7 0⟩
  let stf := (w.zip sha256K).foldl (fun st p => sha256Round st p.1 p.2) st0
  [add32 (hs.getD 0 0) stf.a, add32 (hs.getD 1 0) stf.b,
   add32 (hs.getD 2 0) stf.c, add32 (hs.getD 3 0) stf.d,
   add32 (hs.getD 4 0) stf.e, add32 (hs.getD 5 0) stf.f,
   add32 (hs.getD 6 0) stf.g, add32 (hs.getD 7 0) stf.h]

/-- SHA-256 digest (32 bytes) of a byte list. -/
def sha256 (msg : List Nat) : List Nat :=
  let hf := (chunks64 (sha256Pad msg)).foldl sha256Compress sha256H0
  hf.foldr (fun x acc => beBytes 4 x ++ acc) []

/-- Lowercase hex character of a nibble. -/
def hexChar (n : Nat) : Char :=
  if n < 10 then Char.ofNat (48 + n) else Char.ofNat (87 + n)

/-- Lowercase hex characters of a byte list. -/
def hexCharsOfBytes (bytes : List Nat) : List Char :=
  bytes.foldr (fun b acc => hexChar (b / 16) :: hexChar (b % 16) :: acc) []

/-- Lowercase hex string of a byte list (`hashlib`'s `hexdigest`). -/
def hexOfBytes (bytes : List Nat) : String :=
  ⟨hexCharsOfBytes bytes⟩

/-- UTF-8 encoding of one character (the standard 1–4 byte scheme,
models Python `str.encode("utf-8")` per character). -/
def utf8Char (c : Char) : List Nat :=
  let n := c.toNat
  if n < 0x80 then [n]
  else if n < 0x800 then [0xc0 + n / 64, 0x80 + n % 64]
  else if n < 0x10000 then
    [0xe0 + n / 4096, 0x80 + n / 64 % 64, 0x80 + n % 64]
  else
    [0xf0 + n / 262144, 0x80 + n / 4096 % 64, 0x80 + n / 64 % 64, 0x80 + n % 64]

/-- UTF-8 encoding of a string, models `text.encode("utf-8")`. -/
def utf8Bytes (s : String) : List Nat :=
  s.data.foldr (fun c acc => utf8Char c ++ acc) []

/-! ## `storage.py`

The Redis backend is modelled as a single keyspace: a partial map from
key strings to value strings for `GET`/`SET`/`SETEX`/`INCR`/`DEL`,
plus per-key member sets for `SADD`/`SREM`/`SISMEMBER`. TTLs
(`EXPIRE`, the `SETEX` expiry) only govern wall-clock expiry, which is
outside this embedding; a key simply persists until deleted. A `Store`
holds `client = none` when the connection failed (`self.client is
None`) and an `erroring` client models a reachable object whose every
backend call raises (the unreachable-backend case each method guards
with `try/except`). -/

/-- The Redis keyspace. -/
structure RedisDb where
  kv : String → Option String
  sets : String → String → Bool

/-- `SET key v` (also the value part of `SETEX`). -/
def RedisDb.setKey (db : RedisDb) (k v : String) : RedisDb :=
  { db with kv := fun x => if x = k then some v else db.kv x }

/-- `DEL key`. -/
def RedisDb.delKey (db : RedisDb) (k : String) : RedisDb :=
  { db with kv := fun x => if x = k then none else db.kv x }

/-- `SADD key m`. -/
def RedisDb.sadd (db : RedisDb) (k m : String) : RedisDb :=
  { db with sets := fun x y => if x = k && y = m then true else db.sets x y }

/-- `SREM key m`. -/
def RedisDb.srem (db : RedisDb) (k m : String) : RedisDb :=
  { db with sets := fun x y => if x = k && y = m then false else db.sets x y }

/-- A connected Redis client: healthy, or raising on every call. -/
inductive RedisClient where
  | healthy (db : RedisDb)
  | erroring

/-- `storage.Store`: wraps the optional client. -/
structure Store where
  client : Option RedisClient

/-- The backing store is unreachable: no client, or every backend
call errors. -/
def Store.unreachable (s : Store) : Prop :=
  s.client = none ∨ s.client = some RedisClient.erroring

/-- `Store._strike_key`. -/
def strike_key (chat_id user_id : Int) : String :=
  "strikes:" ++ toString chat_id ++ ":" ++ toString user_id

/-- `Store._dedup_key`. -/
def dedup_key (chat_id : Int) (content_hash : String) : String :=
  "dedup:" ++ toString chat_id ++ ":" ++ content_hash

/-- `Store._strict_key`. -/
def strict_key (chat_id : Int) : String :=
  "strict:" ++ toString chat_id

/-- `Store._whitelist_key`. -/
def whitelist_key (chat_id : Int) : String :=
  "whitelist:" ++ toString chat_id

/-- `Store._blacklist_key`. -/
def blacklist_key (chat_id : Int) : String :=
  "blacklist:" ++ toString chat_id

/-- `Store._hash_content`: first 16 hex characters of the SHA-256 of
the UTF-8 encoding of `text` — the raw text, no normalization (the
character-slice `[:16]` taken on the character list). -/
def hash_content (text : String) : String :=
  ⟨(hexCharsOfBytes (sha256 (utf8Bytes text))).take 16⟩

/-- `Store.get_strikes`: 0 with no client; else `GET` and
`int(val) if val else 0`, any backend or parse error giving 0. -/
def Store.get_strikes (s : Store) (chat_id user_id : Int) : Int :=
  match s.client with
  | none => 0
  | some RedisClient.erroring => 0
  | some (RedisClient.healthy db) =>
    match db.kv (strike_key chat_id user_id) with
    | none => 0
    | some v => if v = "" then 0 else (v.toInt?).getD 0

/-- `Store.increment_strikes`: returns the new count and the updated
store. `INCR` creates a missing key as 1; on a non-integer stored
value the backend call errors, and any error path returns 0 with the
store unmodified. -/
def Store.increment_strikes (s : Store) (chat_id user_id : Int) :
    Int × Store :=
  match s.client with
  | none => (0, s)
  | some RedisClient.erroring => (0, s)
  | some (RedisClient.healthy db) =>
    let key := strike_key chat_id user_id
    match db.kv key with
    | none => (1, ⟨some (RedisClient.healthy (db.setKey key "1"))⟩)
    | some v =>
      match v.toInt? with
      | some n => (n + 1, ⟨some (RedisClient.healthy (db.setKey key (toString (n + 1))))⟩)
      | none => (0, s)

/-- `Store.reset_strikes`: `DEL` the strike key; no-op when
unreachable. -/
def Store.reset_strikes (s : Store) (chat_id user_id : Int) : Store :=
  match s.client with
  | none => s
  | some RedisClient.erroring => s
  | some (RedisClient.healthy db) =>
    ⟨some (RedisClient.healthy (db.delKey (strike_key chat_id user_id)))⟩

/-- `Store.is_duplicate`: `EXISTS` on the dedup key of the content
hash; `False` when unreachable. -/
def Store.is_duplicate (s : Store) (chat_id : Int) (text : String) : Bool :=
  match s.client with
  | none => false
  | some RedisClient.erroring => false
  | some (RedisClient.healthy db) =>
    (db.kv (dedup_key chat_id (hash_content text))).isSome

/-- `Store.mark_as_processed`: `SETEX` the dedup key to `"1"`; no-op
when unreachable. -/
def Store.mark_as_processed (s : Store) (chat_id : Int) (text : String) : Store :=
  match s.client with
  | none => s
  | some RedisClient.erroring => s
  | some (RedisClient.healthy db) =>
    ⟨some (RedisClient.healthy (db.setKey (dedup_key chat_id (hash_content text)) "1"))⟩

/-- `Store.is_strict_mode`: `GET` equals `"1"`; `False` when
unreachable. -/
def Store.is_strict_mode (s : Store) (chat_id : Int) : Bool :=
  match s.client with
  | none => false
  | some RedisClient.erroring => false
  | some (RedisClient.healthy db) => db.kv (strict_key chat_id) == some "1"

/-- `Store.toggle_strict_mode`: read the current state, `SET` its
negation, return the new state; `False` and no-op when unreachable. -/
def Store.toggle_strict_mode (s : Store) (chat_id : Int) : Bool × Store :=
  match s.client with
  | none => (false, s)
  | some RedisClient.erroring => (false, s)
  | some (RedisClient.healthy db) =>
    let newState := !(s.is_strict_mode chat_id)
    (newState,
     ⟨some (RedisClient.healthy
        (db.setKey (strict_key chat_id) (if newState then "1" else "0")))⟩)

/-- `Store.is_whitelisted`: `SISMEMBER` on `str(user_id)`; `False`
when unreachable. -/
def Store.is_whitelisted (s : Store) (chat_id user_id : Int) : Bool :=
  match s.client with
  | none => false
  | some RedisClient.erroring => false
  | some (RedisClient.healthy db) =>
    db.sets (whitelist_key chat_id) (toString user_id)

/-- `Store.add_to_whitelist`; no-op when unreachable. -/
def Store.add_to_whitelist (s : Store) (chat_id user_id : Int) : Store :=
  match s.client with
  | none => s
  | some RedisClient.erroring => s
  | some (RedisClient.healthy db) =>
    ⟨some (RedisClient.healthy (db.sadd (whitelist_key chat_id) (toString user_id)))⟩

/-- `Store.remove_from_whitelist`; no-op when unreachable. -/
def Store.remove_from_whitelist (s : Store) (chat_id user_id : Int) : Store :=
  match s.client with
  | none => s
  | some RedisClient.erroring => s
  | some (RedisClient.healthy db) =>
    ⟨some (RedisClient.healthy (db.srem (whitelist_key chat_id) (toString user_id)))⟩

/-- `Store.is_blacklisted`: `SISMEMBER` on `str(user_id)`; `False`
when unreachable. -/
def Store.is_blacklisted (s : Store) (chat_id user_id : Int) : Bool :=
  match s.client with
  | none => false
  | some RedisClient.erroring => false
  | some (RedisClient.healthy db) =>
    db.sets (blacklist_key chat_id) (toString user_id)

/-- `Store.add_to_blacklist`; no-op when unreachable. -/
def Store.add_to_blacklist (s : Store) (chat_id user_id : Int) : Store :=
  match s.client with
  | none => s
  | some RedisClient.erroring => s
  | some (RedisClient.healthy db) =>
    ⟨some (RedisClient.healthy (db.sadd (blacklist_key chat_id) (toString user_id)))⟩

/-- `Store.remove_from_blacklist`; no-op when unreachable. -/
def Store.remove_from_blacklist (s : Store) (chat_id user_id : Int) : Store :=
  match s.client with
  | none => s
  | some RedisClient.erroring => s
  | some (RedisClient.healthy db) =>
    ⟨some (RedisClient.healthy (db.srem (blacklist_key chat_id) (toString user_id)))⟩

/-! ## `handlers.message_handler`

The dispatcher is embedded as a pure function from the message
context, the optional store, and the rules configuration to the list
of outward action requests (in emission order) and the resulting
store. Transport calls (`delete_message`, `send_warning`, `mute_user`,
`ban_user`, `log_to_admin_channel` from `actions.py`) are the emitted
`Action` constructors; their delivery success is outside the core (the
source ignores their return values). The admin check
(`is_user_admin`, a Telegram API call) enters as the `isAdmin` field
of the context. -/

/-- An outward action request emitted by the dispatcher. -/
inductive Action where
  | deleteMsg (chatId messageId : Int)
  | warn (chatId userId : Int) (reason : String)
  | mute (chatId userId : Int) (durationHours : Nat)
  | ban (chatId userId : Int)
  | audit (action : String) (chatId userId : Int) (score : Int) (reasons : String)
deriving Repr, DecidableEq

/-- The per-message inputs of `handlers.message_handler`: ids, the
text already extracted by `extract_text_from_message`, and the admin
flag from the transport. -/
structure MsgCtx where
  chatId : Int
  userId : Int
  messageId : Int
  text : String
  isAdmin : Bool

/-- `handlers.message_handler`: admin bypass, whitelist skip,
blacklist short-circuit, dedup skip, strict-mode read, scoring,
dedup-marking, then the delete branch with the strike ladder on the
incremented count, or the warn-only branch. -/
def message_handler (ctx : MsgCtx) (store : Option Store)
    (cfg : RulesConfig) : List Action × Option Store :=
  if ctx.text = "" then ([], store)
  else if ctx.isAdmin then ([], store)
  else
    let wl := match store with
      | some s => s.is_whitelisted ctx.chatId ctx.userId
      | none => false
    if wl then ([], store)
    else
      let bl := match store with
        | some s => s.is_blacklisted ctx.chatId ctx.userId
        | none => false
      if bl then
        ([Action.deleteMsg ctx.chatId ctx.messageId,
          Action.ban ctx.chatId ctx.userId,
          Action.audit "BAN" ctx.chatId ctx.userId 999 "Blacklisted user"],
         store)
      else
        let dup := match store with
          | some s => s.is_duplicate ctx.chatId ctx.text
          | none => false
        if dup then ([], store)
        else
          let strict := match store with
            | some s => s.is_strict_mode ctx.chatId
            | none => false
          let score := calculate_spam_score ctx.text strict cfg
          if !score.should_warn && !score.should_delete then ([], store)
          else
            let store1 := match store with
              | some s => some (s.mark_as_processed ctx.chatId ctx.text)
              | none => none
            if score.should_delete then
              let current := match store1 with
                | some s => s.get_strikes ctx.chatId ctx.userId
                | none => 0
              let incd := match store1 with
                | some s =>
                  let r := s.increment_strikes ctx.chatId ctx.userId
                  (r.1, some r.2)
                | none => (current + 1, none)
              let escalation :=
                if incd.1 = 1 then
                  (Action.warn ctx.chatId ctx.userId
                     ("Spam detected (score: " ++ toString score.total ++ ")"),
                   "DELETE+WARN")
                else if incd.1 = 2 then
                  (Action.mute ctx.chatId ctx.userId 24, "DELETE+MUTE")
                else
                  (Action.ban ctx.chatId ctx.userId, "DELETE+BAN")
              ([Action.deleteMsg ctx.chatId ctx.messageId,
                escalation.1,
                Action.audit escalation.2 ctx.chatId ctx.userId score.total
                  (String.intercalate ", " score.reasons)],
               incd.2)
            else
              ([Action.warn ctx.chatId ctx.userId
                  ("Suspicious content (score: " ++ toString score.total ++ ")"),
                Action.audit "WARN" ctx.chatId ctx.userId score.total
                  (String.intercalate ", " score.reasons)],
               store1)

/-! ## Shared lemmas and concrete objects -/

/-- An empty Redis keyspace. -/
def emptyRedisDb : RedisDb := ⟨fun _ => none, fun _ _ => false⟩

/-- A store with a healthy connection to `db`. -/
def healthyStore (db : RedisDb) : Store := ⟨some (RedisClient.healthy db)⟩

/-- A delete-worthy sample text (score 12 under the default
configuration). -/
def sampleSpamText : String := "Free crypto https://bit.ly/a https://scam.xyz"

/-- The spec's concrete scoring example text. -/
def sampleWarnText : String := "Check out https://bit.ly/a and https://scam.xyz"

theorem firstChar_append (a b : String) (c : Char)
    (h : a.data.head? = some c) : (a ++ b).data.head? = some c := by
  rw [String.data_append, List.head?_append, h]; rfl

theorem ne_of_firstChar (s t : String) (c d : Char)
    (hs : s.data.head? = some c) (ht : t.data.head? = some d)
    (hcd : c ≠ d) : s ≠ t := by
  intro h
  subst h
  rw [hs] at ht
  exact hcd (Option.some.inj ht)

theorem strike_key_head (chat user : Int) :
    (strike_key chat user).data.head? = some 's' := by
  unfold strike_key
  exact firstChar_append _ _ _ (firstChar_append _ _ _ (firstChar_append _ _ _ rfl))

theorem dedup_key_head (chat : Int) (h : String) :
    (dedup_key chat h).data.head? = some 'd' := by
  unfold dedup_key
  exact firstChar_append _ _ _ (firstChar_append _ _ _ (firstChar_append _ _ _ rfl))

/-- The strike keyspace and the dedup keyspace are disjoint (their
prefixes differ). -/
theorem strike_key_ne_dedup_key (c u c' : Int) (h : String) :
    strike_key c u ≠ dedup_key c' h :=
  ne_of_firstChar _ _ 's' 'd' (strike_key_head c u) (dedup_key_head c' h)
    (by decide)

/-- Dedup keys of one chat agree exactly on the content hash. -/
theorem dedup_key_inj (c : Int) (h1 h2 : String) :
    (dedup_key c h1 = dedup_key c h2) ↔ h1 = h2 := by
  constructor
  · intro h
    have hd := congrArg String.data h
    simp only [dedup_key, String.data_append] at hd
    exact String.ext (List.append_cancel_left hd)
  · intro h
    rw [h]

/-! ## Claims -/

/-- C2: for every text and rules configuration, the strict-mode score
equals the non-strict score plus 1 exactly when the non-strict total
is positive, and is unchanged (zero) otherwise. -/
theorem strict_mode_adds_one (text : String) (cfg : RulesConfig) :
    (calculate_spam_score text true cfg).total =
      (calculate_spam_score text false cfg).total +
        (if 0 < (calculate_spam_score text false cfg).total then 1 else 0) := by
  unfold calculate_spam_score
  by_cases h : 0 < (base_score text cfg).1
  · simp [h]
  · simp [h]

/-- C8: the spec's concrete scoring example. On
`"Check out https://bit.ly/a and https://scam.xyz"` with the default
configuration and strict mode off, the scorer finds exactly two URLs,
scores 2 for links, 2 for one suspicious TLD and 3 for one shortener
(total 7), warns and does not delete. -/
theorem concrete_scoring_example :
    (extract_urls sampleWarnText).length = 2 ∧
    (calculate_spam_score sampleWarnText false defaultRulesConfig).total = 7 ∧
    (calculate_spam_score sampleWarnText false defaultRulesConfig).reasons =
      ["2 links (+2)", "Suspicious TLD (1) (+2)", "URL shortener (+3)"] ∧
    (calculate_spam_score sampleWarnText false defaultRulesConfig).should_warn = true ∧
    (calculate_spam_score sampleWarnText false defaultRulesConfig).should_delete = false := by
  refine ⟨by decide, by decide, by decide, by decide, by decide⟩

/-- C9: the non-English check is total and guarded: it is true exactly
when the cleaned text is nonempty and the non-Latin count reaches the
threshold's proportion of its length — in particular the empty cleaned
text yields false and no division by zero occurs. -/
theorem non_english_check_total (text : String) (threshold : ℚ) :
    has_non_english_text text threshold = true ↔
      0 < (cleanedChars text).length ∧
        threshold ≤ (nonLatinCount text : ℚ) / ((cleanedChars text).length : ℚ) := by
  unfold has_non_english_text
  by_cases h : (cleanedChars text).length = 0
  · simp [h]
  · have hmk : mkRat (nonLatinCount text : Int) (cleanedChars text).length =
        (nonLatinCount text : ℚ) / ((cleanedChars text).length : ℚ) := by
      rw [Rat.mkRat_eq_divInt, Rat.divInt_eq_div]
      push_cast
      rfl
    simp only [h, if_false, decide_eq_true_eq, hmk]
    exact ⟨fun hle => ⟨Nat.pos_of_ne_zero h, hle⟩, fun hp => hp.2⟩

/-- C7 counterexample: a configuration file supplying
`warn_threshold: 10` and `hard_delete_threshold: 2` is adopted
unvalidated, and the resulting configuration violates
`0 ≤ warnThreshold ≤ deleteThreshold`. -/
theorem threshold_invariant_violated :
    ¬ (0 ≤ (RulesConfig.construct
            (some ⟨some 10, some 2, [], none, none⟩)).warn_threshold ∧
       (RulesConfig.construct
            (some ⟨some 10, some 2, [], none, none⟩)).warn_threshold ≤
         (RulesConfig.construct
            (some ⟨some 10, some 2, [], none, none⟩)).hard_delete_threshold) := by
  decide

/-- C7 amended: construction performs no validation, so the invariant
`0 ≤ warnThreshold ≤ deleteThreshold` holds exactly when the effective
values (file values where supplied, defaults otherwise) satisfy it
themselves; with no configuration file it holds (defaults 4 ≤ 8). -/
theorem threshold_invariant_iff (oy : Option YamlRules) :
    (0 ≤ (RulesConfig.construct oy).warn_threshold ∧
     (RulesConfig.construct oy).warn_threshold ≤
       (RulesConfig.construct oy).hard_delete_threshold) ↔
      (match oy with
       | none => True
       | some y =>
         0 ≤ y.warn_threshold.getD WARN_THRESHOLD ∧
           y.warn_threshold.getD WARN_THRESHOLD ≤
             y.hard_delete_threshold.getD HARD_DELETE_THRESHOLD) := by
  cases oy with
  | none => simp [RulesConfig.construct, WARN_THRESHOLD, HARD_DELETE_THRESHOLD]
  | some y => simp [RulesConfig.construct]

/-- C3: when the backing store is unreachable (no client, or a client
whose calls error), every read returns its safe default — strikes 0,
not duplicate, not strict, not whitelisted, not blacklisted — and
every write returns the store unchanged; nothing escapes to the
caller. -/
theorem store_fails_open (s : Store) (h : s.unreachable)
    (chat user : Int) (text : String) :
    s.get_strikes chat user = 0 ∧
    s.is_duplicate chat text = false ∧
    s.is_strict_mode chat = false ∧
    s.is_whitelisted chat user = false ∧
    s.is_blacklisted chat user = false ∧
    s.increment_strikes chat user = (0, s) ∧
    s.mark_as_processed chat text = s ∧
    s.reset_strikes chat user = s ∧
    s.toggle_strict_mode chat = (false, s) ∧
    s.add_to_whitelist chat user = s ∧
    s.remove_from_whitelist chat user = s ∧
    s.add_to_blacklist chat user = s ∧
    s.remove_from_blacklist chat user = s := by
  obtain ⟨c⟩ := s
  rcases h with h | h <;>
    (simp only [Store.mk.injEq] at h ⊢; subst h) <;>
    exact ⟨rfl, rfl, rfl, rfl, rfl, rfl, rfl, rfl, rfl, rfl, rfl, rfl, rfl⟩

/-- C3 witness: the fail-open contract evaluated on a store whose
client errors, at chat 1, user 2, text `"hi"`. -/
theorem store_fails_open_witness :
    (Store.mk (some RedisClient.erroring)).get_strikes 1 2 = 0 ∧
    (Store.mk (some RedisClient.erroring)).is_duplicate 1 "hi" = false ∧
    (Store.mk (some RedisClient.erroring)).is_strict_mode 1 = false ∧
    (Store.mk (some RedisClient.erroring)).is_whitelisted 1 2 = false ∧
    (Store.mk (some RedisClient.erroring)).is_blacklisted 1 2 = false ∧
    (Store.mk (some RedisClient.erroring)).increment_strikes 1 2 =
      (0, Store.mk (some RedisClient.erroring)) ∧
    (Store.mk (some RedisClient.erroring)).mark_as_processed 1 "hi" =
      Store.mk (some RedisClient.erroring) ∧
    (Store.mk (some RedisClient.erroring)).reset_strikes 1 2 =
      Store.mk (some RedisClient.erroring) ∧
    (Store.mk (some RedisClient.erroring)).toggle_strict_mode 1 =
      (false, Store.mk (some RedisClient.erroring)) ∧
    (Store.mk (some RedisClient.erroring)).add_to_whitelist 1 2 =
      Store.mk (some RedisClient.erroring) ∧
    (Store.mk (some RedisClient.erroring)).remove_from_whitelist 1 2 =
      Store.mk (some RedisClient.erroring) ∧
    (Store.mk (some RedisClient.erroring)).add_to_blacklist 1 2 =
      Store.mk (some RedisClient.erroring) ∧
    (Store.mk (some RedisClient.erroring)).remove_from_blacklist 1 2 =
      Store.mk (some RedisClient.erroring) :=
  store_fails_open (Store.mk (some RedisClient.erroring)) (Or.inr rfl) 1 2 "hi"

/-- C4 counterexample: the dedup hash is taken over the raw text, not
the normalized text. `"x​"` (x followed by a zero-width space)
and `"x"` normalize to the same string, yet their dedup hashes differ,
and marking one processed does not make the other a duplicate. -/
theorem dedup_not_normalized :
    normalize_text "x​" = normalize_text "x" ∧
    hash_content "x​" ≠ hash_content "x" ∧
    Store.is_duplicate
      (Store.mark_as_processed (healthyStore emptyRedisDb) 1 "x") 1 "x​"
      = false := by
  refine ⟨by rfl, by decide, ?_⟩
  decide

/-- C4 amended: the dedup marker key is derived from the first 16 hex
characters of the SHA-256 of the raw UTF-8 text (`normalize_text`
exists in the codebase but is never applied), so after marking `t1`
processed, `t2` is a duplicate exactly when its raw-content hash
matches `t1`'s (or its key was already present); only byte-identical
texts — not normalization-equal ones — share a marker. -/
theorem dedup_keyed_by_raw_hash (db : RedisDb) (chat : Int) (t1 t2 : String) :
    Store.is_duplicate (Store.mark_as_processed (healthyStore db) chat t1) chat t2 =
      (hash_content t2 == hash_content t1 ||
        (db.kv (dedup_key chat (hash_content t2))).isSome) ∧
    hash_content t1 = ⟨(hexCharsOfBytes (sha256 (utf8Bytes t1))).take 16⟩ := by
  constructor
  · simp only [Store.mark_as_processed, healthyStore, Store.is_duplicate,
      RedisDb.setKey]
    by_cases h : hash_content t2 = hash_content t1
    · rw [if_pos ((dedup_key_inj chat _ _).mpr h)]
      simp [h]
    · rw [if_neg (fun hk => h ((dedup_key_inj chat _ _).mp hk))]
      simp [h]
  · rfl

/-- C5: a blacklisted (non-admin, non-whitelisted) user's message is
deleted and the user banned immediately, whatever the rules
configuration would have scored; the audit record carries the fixed
sentinel score 999, and the store — in particular the strike counter —
is returned unchanged. -/
theorem blacklist_short_circuit (db : RedisDb) (chat user msgId : Int)
    (text : String) (cfg : RulesConfig)
    (htext : text ≠ "")
    (hwl : db.sets (whitelist_key chat) (toString user) = false)
    (hbl : db.sets (blacklist_key chat) (toString user) = true) :
    message_handler ⟨chat, user, msgId, text, false⟩ (some (healthyStore db)) cfg =
      ([Action.deleteMsg chat msgId, Action.ban chat user,
        Action.audit "BAN" chat user 999 "Blacklisted user"],
       some (healthyStore db)) := by
  simp [message_handler, healthyStore, Store.is_whitelisted, Store.is_blacklisted,
    htext, hwl, hbl]

/-- C5 witness: the blacklist short-circuit evaluated on a store whose
blacklist for chat 1 contains user 2, message 3, text `"hi"`, default
rules. -/
theorem blacklist_short_circuit_witness :
    message_handler ⟨1, 2, 3, "hi", false⟩
        (some (healthyStore (emptyRedisDb.sadd (blacklist_key 1) (toString (2 : Int)))))
        defaultRulesConfig =
      ([Action.deleteMsg 1 3, Action.ban 1 2,
        Action.audit "BAN" 1 2 999 "Blacklisted user"],
       some (healthyStore (emptyRedisDb.sadd (blacklist_key 1) (toString (2 : Int))))) :=
  blacklist_short_circuit (emptyRedisDb.sadd (blacklist_key 1) (toString (2 : Int)))
    1 2 3 "hi" defaultRulesConfig (by decide) (by decide) (by decide)

/-- C10: with a store object present but degraded (every backend call
errors), `increment_strikes` fails open to 0, and the dispatcher's
ladder sends the count 0 into its final else-branch: a delete-worthy
message gets the user banned (audit `DELETE+BAN`) even with zero prior
strikes; the store is unchanged. -/
theorem degraded_store_bans (chat user msgId : Int) (text : String)
    (cfg : RulesConfig)
    (htext : text ≠ "")
    (hdel : (calculate_spam_score text false cfg).should_delete = true) :
    message_handler ⟨chat, user, msgId, text, false⟩
        (some ⟨some RedisClient.erroring⟩) cfg =
      ([Action.deleteMsg chat msgId, Action.ban chat user,
        Action.audit "DELETE+BAN" chat user
          (calculate_spam_score text false cfg).total
          (String.intercalate ", " (calculate_spam_score text false cfg).reasons)],
       some ⟨some RedisClient.erroring⟩) := by
  simp [message_handler, Store.is_whitelisted, Store.is_blacklisted,
    Store.is_duplicate, Store.is_strict_mode, Store.mark_as_processed,
    Store.get_strikes, Store.increment_strikes, htext, hdel]

/-- C10 witness: the degraded-store ban evaluated at chat 1, user 2,
message 3, on a delete-worthy text under the default rules. -/
theorem degraded_store_bans_witness :
    message_handler ⟨1, 2, 3, sampleSpamText, false⟩
        (some ⟨some RedisClient.erroring⟩) defaultRulesConfig =
      ([Action.deleteMsg 1 3, Action.ban 1 2,
        Action.audit "DELETE+BAN" 1 2
          (calculate_spam_score sampleSpamText false defaultRulesConfig).total
          (String.intercalate ", "
            (calculate_spam_score sampleSpamText false defaultRulesConfig).reasons)],
       some ⟨some RedisClient.erroring⟩) :=
  degraded_store_bans 1 2 3 sampleSpamText defaultRulesConfig (by decide) (by decide)

/-- C6: on warn-worthy but not delete-worthy content the dispatcher
emits exactly a warning and a `WARN` audit record — no deletion — and
while the text is marked processed in the dedup store, the
(chat, user) strike counter reads the same after as before. -/
theorem warn_only_frame (db : RedisDb) (chat user msgId : Int) (text : String)
    (cfg : RulesConfig)
    (htext : text ≠ "")
    (hwl : db.sets (whitelist_key chat) (toString user) = false)
    (hbl : db.sets (blacklist_key chat) (toString user) = false)
    (hdup : db.kv (dedup_key chat (hash_content text)) = none)
    (hwarn : (calculate_spam_score text
        (db.kv (strict_key chat) == some "1") cfg).should_warn = true)
    (hdel : (calculate_spam_score text
        (db.kv (strict_key chat) == some "1") cfg).should_delete = false) :
    message_handler ⟨chat, user, msgId, text, false⟩ (some (healthyStore db)) cfg =
      ([Action.warn chat user
          ("Suspicious content (score: " ++
            toString (calculate_spam_score text
              (db.kv (strict_key chat) == some "1") cfg).total ++ ")"),
        Action.audit "WARN" chat user
          (calculate_spam_score text
            (db.kv (strict_key chat) == some "1") cfg).total
          (String.intercalate ", " (calculate_spam_score text
            (db.kv (strict_key chat) == some "1") cfg).reasons)],
       some (healthyStore (db.setKey (dedup_key chat (hash_content text)) "1"))) ∧
    Store.get_strikes
        (healthyStore (db.setKey (dedup_key chat (hash_content text)) "1"))
        chat user =
      Store.get_strikes (healthyStore db) chat user := by
  constructor
  · simp [message_handler, healthyStore, Store.is_whitelisted,
      Store.is_blacklisted, Store.is_duplicate, Store.is_strict_mode,
      Store.mark_as_processed, htext, hwl, hbl, hdup, hwarn, hdel]
  · simp [Store.get_strikes, healthyStore, RedisDb.setKey,
      strike_key_ne_dedup_key chat user chat (hash_content text)]

/-- C6 witness: the warn-only frame evaluated on the empty store at
chat 1, user 2, message 3, on the spec's score-7 example text under
the default rules. -/
theorem warn_only_frame_witness :
    message_handler ⟨1, 2, 3, sampleWarnText, false⟩
        (some (healthyStore emptyRedisDb)) defaultRulesConfig =
      ([Action.warn 1 2
          ("Suspicious content (score: " ++
            toString (calculate_spam_score sampleWarnText
              (emptyRedisDb.kv (strict_key 1) == some "1")
              defaultRulesConfig).total ++ ")"),
        Action.audit "WARN" 1 2
          (calculate_spam_score sampleWarnText
            (emptyRedisDb.kv (strict_key 1) == some "1")
            defaultRulesConfig).total
          (String.intercalate ", " (calculate_spam_score sampleWarnText
            (emptyRedisDb.kv (strict_key 1) == some "1")
            defaultRulesConfig).reasons)],
       some (healthyStore
         (emptyRedisDb.setKey (dedup_key 1 (hash_content sampleWarnText)) "1"))) ∧
    Store.get_strikes
        (healthyStore
          (emptyRedisDb.setKey (dedup_key 1 (hash_content sampleWarnText)) "1"))
        1 2 =
      Store.get_strikes (healthyStore emptyRedisDb) 1 2 :=
  warn_only_frame emptyRedisDb 1 2 3 sampleWarnText defaultRulesConfig
    (by decide) (by decide) (by decide) (by rfl) (by decide) (by decide)

/-- C1: for a non-admin, non-whitelisted, non-blacklisted,
non-duplicate message scored delete-worthy, with the stored strike
value parsing as `n0` (or absent, counting as 0), the dispatcher's
first action deletes the message, the strike counter is incremented to
`n0 + 1` in the resulting store, and the escalation is decided by the
new count: 1 warns, 2 mutes for 24 hours, and 3 or more bans (the
ladder saturates at ban). -/
theorem strike_ladder (db : RedisDb) (chat user msgId : Int) (text : String)
    (cfg : RulesConfig) (n0 : Nat)
    (htext : text ≠ "")
    (hwl : db.sets (whitelist_key chat) (toString user) = false)
    (hbl : db.sets (blacklist_key chat) (toString user) = false)
    (hdup : db.kv (dedup_key chat (hash_content text)) = none)
    (hstrike : db.kv (strike_key chat user) = none ∧ n0 = 0 ∨
      (∃ v, db.kv (strike_key chat user) = some v ∧ v.toInt? = some (n0 : Int)))
    (hdel : (calculate_spam_score text
        (db.kv (strict_key chat) == some "1") cfg).should_delete = true) :
    ((message_handler ⟨chat, user, msgId, text, false⟩
        (some (healthyStore db)) cfg).1.head? =
      some (Action.deleteMsg chat msgId)) ∧
    ((message_handler ⟨chat, user, msgId, text, false⟩
        (some (healthyStore db)) cfg).2 =
      some (healthyStore
        ((db.setKey (dedup_key chat (hash_content text)) "1").setKey
          (strike_key chat user) (toString ((n0 : Int) + 1))))) ∧
    (n0 = 0 →
      (message_handler ⟨chat, user, msgId, text, false⟩
          (some (healthyStore db)) cfg).1 =
        [Action.deleteMsg chat msgId,
         Action.warn chat user ("Spam detected (score: " ++
           toString (calculate_spam_score text
             (db.kv (strict_key chat) == some "1") cfg).total ++ ")"),
         Action.audit "DELETE+WARN" chat user
           (calculate_spam_score text
             (db.kv (strict_key chat) == some "1") cfg).total
           (String.intercalate ", " (calculate_spam_score text
             (db.kv (strict_key chat) == some "1") cfg).reasons)]) ∧
    (n0 = 1 →
      (message_handler ⟨chat, user, msgId, text, false⟩
          (some (healthyStore db)) cfg).1 =
        [Action.deleteMsg chat msgId,
         Action.mute chat user 24,
         Action.audit "DELETE+MUTE" chat user
           (calculate_spam_score text
             (db.kv (strict_key chat) == some "1") cfg).total
           (String.intercalate ", " (calculate_spam_score text
             (db.kv (strict_key chat) == some "1") cfg).reasons)]) ∧
    (2 ≤ n0 →
      (message_handler ⟨chat, user, msgId, text, false⟩
          (some (healthyStore db)) cfg).1 =
        [Action.deleteMsg chat msgId,
         Action.ban chat user,
         Action.audit "DELETE+BAN" chat user
           (calculate_spam_score text
             (db.kv (strict_key chat) == some "1") cfg).total
           (String.intercalate ", " (calculate_spam_score text
             (db.kv (strict_key chat) == some "1") cfg).reasons)]) := by
  have hne : strike_key chat user ≠ dedup_key chat (hash_content text) :=
    strike_key_ne_dedup_key chat user chat (hash_content text)
  have hts : toString (1 : Int) = "1" := rfl
  rcases hstrike with ⟨hk, hn⟩ | ⟨v, hk, hv⟩
  · subst hn
    refine ⟨?_, ?_, ?_, ?_, ?_⟩ <;>
      simp [message_handler, healthyStore, Store.is_whitelisted,
        Store.is_blacklisted, Store.is_duplicate, Store.is_strict_mode,
        Store.mark_as_processed, Store.get_strikes, Store.increment_strikes,
        RedisDb.setKey, htext, hwl, hbl, hdup, hdel, hne, hk, hts]
  · refine ⟨?_, ?_, fun hn => ?_, fun hn => ?_, fun hn => ?_⟩
    · simp [message_handler, healthyStore, Store.is_whitelisted,
        Store.is_blacklisted, Store.is_duplicate, Store.is_strict_mode,
        Store.mark_as_processed, Store.get_strikes, Store.increment_strikes,
        RedisDb.setKey, htext, hwl, hbl, hdup, hdel, hne, hk, hv]
    · simp [message_handler, healthyStore, Store.is_whitelisted,
        Store.is_blacklisted, Store.is_duplicate, Store.is_strict_mode,
        Store.mark_as_processed, Store.get_strikes, Store.increment_strikes,
        RedisDb.setKey, htext, hwl, hbl, hdup, hdel, hne, hk, hv]
    · subst hn
      simp [message_handler, healthyStore, Store.is_whitelisted,
        Store.is_blacklisted, Store.is_duplicate, Store.is_strict_mode,
        Store.mark_as_processed, Store.get_strikes, Store.increment_strikes,
        RedisDb.setKey, htext, hwl, hbl, hdup, hdel, hne, hk, hv]
    · subst hn
      simp [message_handler, healthyStore, Store.is_whitelisted,
        Store.is_blacklisted, Store.is_duplicate, Store.is_strict_mode,
        Store.mark_as_processed, Store.get_strikes, Store.increment_strikes,
        RedisDb.setKey, htext, hwl, hbl, hdup, hdel, hne, hk, hv]
    · have h1 : ((n0 : Int) + 1) ≠ 1 := by omega
      have h2 : ((n0 : Int) + 1) ≠ 2 := by omega
      simp [message_handler, healthyStore, Store.is_whitelisted,
        Store.is_blacklisted, Store.is_duplicate, Store.is_strict_mode,
        Store.mark_as_processed, Store.get_strikes, Store.increment_strikes,
        RedisDb.setKey, htext, hwl, hbl, hdup, hdel, hne, hk, hv, h1, h2]

/-- C1 witness: the ladder's first rung evaluated on the empty store
(a user with no prior strikes) at chat 1, user 2, message 3, on a
delete-worthy text under the default rules: the message is deleted,
the counter becomes 1, and the action is warn. -/
theorem strike_ladder_witness :
    ((message_handler ⟨1, 2, 3, sampleSpamText, false⟩
        (some (healthyStore emptyRedisDb)) defaultRulesConfig).1.head? =
      some (Action.deleteMsg 1 3)) ∧
    ((message_handler ⟨1, 2, 3, sampleSpamText, false⟩
        (some (healthyStore emptyRedisDb)) defaultRulesConfig).2 =
      some (healthyStore
        ((emptyRedisDb.setKey (dedup_key 1 (hash_content sampleSpamText)) "1").setKey
          (strike_key 1 2) (toString (((0 : Nat) : Int) + 1))))) ∧
    ((0 : Nat) = 0 →
      (message_handler ⟨1, 2, 3, sampleSpamText, false⟩
          (some (healthyStore emptyRedisDb)) defaultRulesConfig).1 =
        [Action.deleteMsg 1 3,
         Action.warn 1 2 ("Spam detected (score: " ++
           toString (calculate_spam_score sampleSpamText
             (emptyRedisDb.kv (strict_key 1) == some "1")
             defaultRulesConfig).total ++ ")"),
         Action.audit "DELETE+WARN" 1 2
           (calculate_spam_score sampleSpamText
             (emptyRedisDb.kv (strict_key 1) == some "1")
             defaultRulesConfig).total
           (String.intercalate ", " (calculate_spam_score sampleSpamText
             (emptyRedisDb.kv (strict_key 1) == some "1")
             defaultRulesConfig).reasons)]) ∧
    ((0 : Nat) = 1 →
      (message_handler ⟨1, 2, 3, sampleSpamText, false⟩
          (some (healthyStore emptyRedisDb)) defaultRulesConfig).1 =
        [Action.deleteMsg 1 3,
         Action.mute 1 2 24,
         Action.audit "DELETE+MUTE" 1 2
           (calculate_spam_score sampleSpamText
             (emptyRedisDb.kv (strict_key 1) == some "1")
             defaultRulesConfig).total
           (String.intercalate ", " (calculate_spam_score sampleSpamText
             (emptyRedisDb.kv (strict_key 1) == some "1")
             defaultRulesConfig).reasons)]) ∧
    (2 ≤ (0 : Nat) →
      (message_handler ⟨1, 2, 3, sampleSpamText, false⟩
          (some (healthyStore emptyRedisDb)) defaultRulesConfig).1 =
        [Action.deleteMsg 1 3,
         Action.ban 1 2,
         Action.audit "DELETE+BAN" 1 2
           (calculate_spam_score sampleSpamText
             (emptyRedisDb.kv (strict_key 1) == some "1")
             defaultRulesConfig).total
           (String.intercalate ", " (calculate_spam_score sampleSpamText
             (emptyRedisDb.kv (strict_key 1) == some "1")
             defaultRulesConfig).reasons)]) :=
  strike_ladder emptyRedisDb 1 2 3 sampleSpamText defaultRulesConfig 0
    (by decide) (by decide) (by decide) (by rfl) (Or.inl ⟨rfl, rfl⟩) (by decide)

end AntiSpam
